import Mathlib

/-
Verification development for the quicka11y accessibility-audit engine
(src/src/content/content.js).

The detectors are embedded as pure Lean functions over element records that
carry exactly the data the JavaScript reads from the DOM (tag names,
attributes, computed-style strings, text content).  JavaScript numbers are
modelled as exact rationals or reals; a value that can be NaN (the result of
parseFloat / parseInt) is modelled as an Option, with none standing for NaN,
so that every NaN comparison is false, as in JavaScript.  getAttribute
results are Option String, with none standing for null.  The htmlSnippet
strings of issue records are not modelled: they are produced from the
browser's outerHTML serialization, which the source does not define.  Issue
messages that interpolate a formatted float (toFixed) keep the numeric value
instead of the formatted string.
-/

namespace QuickA11y

/-- JavaScript truthiness of a getAttribute result: null and the empty
string are falsy, every other string is truthy. -/
def jsTruthy (s : Option String) : Bool :=
  match s with
  | none => false
  | some v => v != ""

/-- JavaScript String.prototype.trim: strip leading and trailing
whitespace. -/
def jsTrim (s : String) : String :=
  String.mk
    (((s.data.dropWhile Char.isWhitespace).reverse.dropWhile
      Char.isWhitespace).reverse)

/-- JavaScript String.prototype.toLowerCase on the ASCII range. -/
def jsToLower (s : String) : String :=
  String.mk (s.data.map Char.toLower)

/-- Value of a decimal digit character. -/
def digitVal (c : Char) : Nat := c.toNat - 48

/-- Decimal digit list to natural number, most significant first. -/
def digitsToNat (ds : List Char) : Nat :=
  ds.foldl (fun acc c => 10 * acc + digitVal c) 0

/-- ASCII hexadecimal digit test (the /i flag makes both cases legal). -/
def isHexDigitChar (c : Char) : Bool :=
  (48 ≤ c.toNat && c.toNat ≤ 57) ||
  (97 ≤ c.toNat && c.toNat ≤ 102) ||
  (65 ≤ c.toNat && c.toNat ≤ 70)

/-- Value of a hexadecimal digit character (0 on non-digits). -/
def hexVal (c : Char) : Nat :=
  if 48 ≤ c.toNat ∧ c.toNat ≤ 57 then c.toNat - 48
  else if 97 ≤ c.toNat ∧ c.toNat ≤ 102 then c.toNat - 87
  else if 65 ≤ c.toNat ∧ c.toNat ≤ 70 then c.toNat - 55
  else 0

/-- Two hexadecimal digits as one 0-255 component. -/
def hexPair (c₁ c₂ : Char) : Nat := 16 * hexVal c₁ + hexVal c₂

/-- ASCII letter test. -/
def isAsciiLetter (c : Char) : Bool :=
  (65 ≤ c.toNat && c.toNat ≤ 90) || (97 ≤ c.toNat && c.toNat ≤ 122)

/-- Unsigned decimal part of JavaScript parseFloat: digits, an optional dot
and further digits.  Returns the parsed value and the unconsumed rest, or
none when no number can be read (parseFloat would give NaN). -/
def parseFloatBody (cs : List Char) : Option (ℚ × List Char) :=
  let ip := cs.takeWhile Char.isDigit
  let r₁ := cs.dropWhile Char.isDigit
  match ip, r₁ with
  | [], '.' :: r₂ =>
      let fp := r₂.takeWhile Char.isDigit
      let r₃ := r₂.dropWhile Char.isDigit
      if fp.isEmpty then none
      else some ((digitsToNat fp : ℚ) / 10 ^ fp.length, r₃)
  | [], _ => none
  | _, '.' :: r₂ =>
      let fp := r₂.takeWhile Char.isDigit
      let r₃ := r₂.dropWhile Char.isDigit
      some ((digitsToNat ip : ℚ) + (digitsToNat fp : ℚ) / 10 ^ fp.length, r₃)
  | _, _ => some ((digitsToNat ip : ℚ), r₁)

/-- Exponent suffix of JavaScript parseFloat ("e" or "E", optional sign,
digits); without a digit the exponent is ignored, as parseFloat does. -/
def applyFloatExp (q : ℚ) (cs : List Char) : ℚ :=
  match cs with
  | 'e' :: rest | 'E' :: rest =>
      let signNeg := match rest with | '-' :: _ => true | _ => false
      let rest₂ := match rest with | '-' :: r => r | '+' :: r => r | r => r
      let ds := rest₂.takeWhile Char.isDigit
      if ds.isEmpty then q
      else if signNeg then q / 10 ^ digitsToNat ds
      else q * 10 ^ digitsToNat ds
  | _ => q

/-- JavaScript parseFloat on a string: skip leading whitespace, optional
sign, then the longest numeric prefix.  none models NaN.  (The "Infinity"
keyword is not modelled; no caller in the source feeds it.) -/
def jsParseFloat (s : String) : Option ℚ :=
  let cs := s.data.dropWhile Char.isWhitespace
  let neg := match cs with | '-' :: _ => true | _ => false
  let cs₂ := match cs with | '-' :: r => r | '+' :: r => r | r => r
  match parseFloatBody cs₂ with
  | none => none
  | some (q, rest) =>
      let q₂ := applyFloatExp q rest
      some (if neg then -q₂ else q₂)

/-- JavaScript parseInt with the default radix on a decimal string: skip
leading whitespace, optional sign, then leading digits.  none models NaN.
(The implicit 0x-prefix hexadecimal form is not modelled; the source only
applies parseInt to tag levels and font weights.) -/
def jsParseInt (s : String) : Option ℤ :=
  let cs := s.data.dropWhile Char.isWhitespace
  let neg := match cs with | '-' :: _ => true | _ => false
  let cs₂ := match cs with | '-' :: r => r | '+' :: r => r | r => r
  let ds := cs₂.takeWhile Char.isDigit
  if ds.isEmpty then none
  else some (if neg then -(digitsToNat ds : ℤ) else (digitsToNat ds : ℤ))

/-- Comparison `x >= t` on a JavaScript number that may be NaN (none):
every comparison against NaN is false. -/
def jsGe (x : Option ℚ) (t : ℚ) : Bool :=
  match x with
  | some v => t ≤ v
  | none => false

/-- RGBA components as produced by parseColor: r, g, b are the parseInt
results (naturals, unclamped), a is the alpha channel, with none standing
for a NaN produced by parseFloat on a malformed capture such as ".". -/
structure RGBA where
  r : Nat
  g : Nat
  b : Nat
  a : Option ℚ
deriving DecidableEq, Repr

/-- One decimal number capture `(\d+)` of the rgb()/rgba() pattern:
at least one digit, greedily. -/
def matchNatToken (cs : List Char) : Option (Nat × List Char) :=
  let ds := cs.takeWhile Char.isDigit
  let rest := cs.dropWhile Char.isDigit
  if ds.isEmpty then none else some (digitsToNat ds, rest)

/-- `\s*` of the pattern. -/
def skipWs (cs : List Char) : List Char := cs.dropWhile Char.isWhitespace

/-- A literal character of the pattern. -/
def expectChar (c : Char) (cs : List Char) : Option (List Char) :=
  match cs with
  | c' :: rest => if c' = c then some rest else none
  | [] => none

/-- Body of the regular expression
`rgba?\(\s*(\d+)\s*,\s*(\d+)\s*,\s*(\d+)\s*(?:,\s*([\d.]+)\s*)?\)`
after the opening parenthesis.  When the optional alpha group is taken, the
captured `[\d.]+` token goes through parseFloat (so "." yields NaN = none);
when it is absent the alpha defaults to 1, as in
`rgbMatch[4] ? parseFloat(rgbMatch[4]) : 1`. -/
def matchRGBTail (cs : List Char) : Option RGBA := do
  let cs := skipWs cs
  let (r, cs) ← matchNatToken cs
  let cs := skipWs cs
  let cs ← expectChar ',' cs
  let cs := skipWs cs
  let (g, cs) ← matchNatToken cs
  let cs := skipWs cs
  let cs ← expectChar ',' cs
  let cs := skipWs cs
  let (b, cs) ← matchNatToken cs
  let cs := skipWs cs
  match cs with
  | ',' :: cs₂ =>
      let cs₃ := skipWs cs₂
      let tok := cs₃.takeWhile (fun c => c.isDigit || c == '.')
      let cs₄ := cs₃.dropWhile (fun c => c.isDigit || c == '.')
      if tok.isEmpty then none
      else do
        let _ ← expectChar ')' (skipWs cs₄)
        pure ⟨r, g, b, jsParseFloat (String.mk tok)⟩
  | ')' :: _ => pure ⟨r, g, b, some 1⟩
  | _ => none

/-- Unanchored leftmost search for the rgb()/rgba() pattern, as
String.prototype.match performs it.  The pattern's literal head is
lowercase (the rgb regular expression carries no /i flag). -/
def searchRGB : List Char → Option RGBA
  | [] => none
  | c :: rest =>
      (match c :: rest with
       | 'r' :: 'g' :: 'b' :: 'a' :: '(' :: tail => matchRGBTail tail
       | 'r' :: 'g' :: 'b' :: '(' :: tail => matchRGBTail tail
       | _ => none) <|> searchRGB rest

/-- Anchored hex pattern `^#([0-9a-f]{3}|[0-9a-f]{6})$` with the /i flag:
a hash followed by exactly three or six hexadecimal digits.  Each digit of
the three-digit shorthand is doubled. -/
def hexParse (cs : List Char) : Option RGBA :=
  match cs with
  | '#' :: rest =>
      if rest.all isHexDigitChar then
        match rest with
        | [c₁, c₂, c₃] => some ⟨hexPair c₁ c₁, hexPair c₂ c₂, hexPair c₃ c₃, some 1⟩
        | [c₁, c₂, c₃, c₄, c₅, c₆] => some ⟨hexPair c₁ c₂, hexPair c₃ c₄, hexPair c₅ c₆, some 1⟩
        | _ => none
      else none
  | _ => none

/-- The JavaScript value parseColor returns when it is non-null: either a
proper color record (from the rgb()/rgba() pattern, the hex pattern, or an
own entry of the named-color table), or — because `colorMap[key] || null`
is an ordinary property lookup on a plain object literal — a truthy value
inherited from Object.prototype when the lowercased key is "constructor"
(the Object constructor function) or "__proto__" (the Object.prototype
object).  An inherited value has no r, g, b or a fields: they read as
undefined.  (These are the only Object.prototype property names that are
entirely lowercase and hence reachable after toLowerCase.) -/
inductive ParsedColor where
  | rgba (c : RGBA)
  | protoProperty (name : String)
deriving DecidableEq, Repr

/-- The named-color lookup `colorMap[s] || null`: the five own entries, the
two reachable inherited Object.prototype properties, and null otherwise. -/
def colorMap (s : String) : Option ParsedColor :=
  if s = "white" then some (ParsedColor.rgba ⟨255, 255, 255, some 1⟩)
  else if s = "black" then some (ParsedColor.rgba ⟨0, 0, 0, some 1⟩)
  else if s = "red" then some (ParsedColor.rgba ⟨255, 0, 0, some 1⟩)
  else if s = "green" then some (ParsedColor.rgba ⟨0, 128, 0, some 1⟩)
  else if s = "blue" then some (ParsedColor.rgba ⟨0, 0, 255, some 1⟩)
  else if s = "constructor" ∨ s = "__proto__" then
    some (ParsedColor.protoProperty s)
  else none

/-- parseColor: the empty string and the literal "transparent" are rejected
up front; then the rgb()/rgba() pattern, then hex, then the named-table
lookup (which can surface an inherited Object.prototype property). -/
def parseColor (color : String) : Option ParsedColor :=
  if color = "" ∨ color = "transparent" then none
  else
    match searchRGB color.data with
    | some c => some (ParsedColor.rgba c)
    | none =>
        match hexParse color.data with
        | some c => some (ParsedColor.rgba c)
        | none => colorMap (jsToLower color)

/-- sRGB component linearization (getRGBLuminance): normalize to [0,1],
then the piecewise linear / gamma curve with threshold 0.03928, divisor
12.92, offset 0.055, gamma divisor 1.055 and exponent 2.4. -/
noncomputable def getRGBLuminance (colorValue : ℝ) : ℝ :=
  let val := colorValue / 255
  if val ≤ 0.03928 then val / 12.92
  else ((val + 0.055) / 1.055) ^ (2.4 : ℝ)

/-- Relative luminance with the ITU-R BT.709 coefficients. -/
noncomputable def getRelativeLuminance (r g b : ℝ) : ℝ :=
  0.2126 * getRGBLuminance r + 0.7152 * getRGBLuminance g +
    0.0722 * getRGBLuminance b

/-- WCAG contrast ratio between two CSS color strings:
(lighter + 0.05) / (darker + 0.05), or the sentinel `some 0` when either
color is null (`if (!fg || !bg) return 0`).  When a parse produces a truthy
inherited prototype object instead of a color record, the null check passes
but its components read as undefined, so the luminances and the ratio are
NaN, modelled as none. -/
noncomputable def calculateContrastRatio (fgColor bgColor : String) :
    Option ℝ :=
  match parseColor fgColor, parseColor bgColor with
  | some (ParsedColor.rgba fg), some (ParsedColor.rgba bg) =>
      let fgLum := getRelativeLuminance fg.r fg.g fg.b
      let bgLum := getRelativeLuminance bg.r bg.g bg.b
      some ((max fgLum bgLum + 0.05) / (min fgLum bgLum + 0.05))
  | some _, some _ => none
  | _, _ => some 0

/-- JavaScript `0 < x` on a number that may be NaN (none): false on NaN. -/
def jsPos : Option ℝ → Prop
  | some r => 0 < r
  | none => False

/-- JavaScript `x < t` on a number that may be NaN (none): false on NaN. -/
def jsLtReal : Option ℝ → ℝ → Prop
  | some r, t => r < t
  | none, _ => False

noncomputable instance (x : Option ℝ) : Decidable (jsPos x) :=
  match x with
  | some r => inferInstanceAs (Decidable (0 < r))
  | none => isFalse fun h => h

noncomputable instance (x : Option ℝ) (t : ℝ) : Decidable (jsLtReal x t) :=
  match x with
  | some r => inferInstanceAs (Decidable (r < t))
  | none => isFalse fun h => h

/-- WCAG large-text test: fontSize ≥ 24, or fontSize ≥ 18.66 and bold
(literal "bold" or numeric weight ≥ 700).  The fontSize argument is a
parseFloat result, so none (NaN) fails both size comparisons. -/
def isLargeText (fontSize : Option ℚ) (fontWeight : String) : Bool :=
  let isBold := fontWeight == "bold" ||
    (match jsParseInt fontWeight with
     | some n => 700 ≤ n
     | none => false)
  jsGe fontSize 24 || (jsGe fontSize 18.66 && isBold)

/-- A direct child node of an element: its nodeType and text content.
TEXT_NODE_TYPE = 3. -/
structure ChildNode where
  nodeType : Nat
  textContent : String
deriving DecidableEq, Repr

/-- The computed-style properties the contrast detector reads. -/
structure ElemStyle where
  display : String
  visibility : String
  opacity : String
  color : String
  backgroundColor : String
  fontSize : String
  fontWeight : String
deriving DecidableEq, Repr

/-- A candidate element of the contrast detector: its (uppercase) tag name,
computed style, text content and direct child nodes. -/
structure CElem where
  tagName : String
  style : ElemStyle
  textContent : String
  childNodes : List ChildNode
deriving DecidableEq, Repr

/-- hasDirectTextContent: some direct child is a text node with non-empty
trimmed content. -/
def hasDirectTextContent (element : CElem) : Bool :=
  element.childNodes.any fun node =>
    node.nodeType == 3 && (jsTrim node.textContent).length > 0

/-- A contrast issue record.  The ratio is kept as the exact real (the
source stores ratio.toFixed(2)); fontSize is kept as the parseFloat result
(the source stores it re-formatted with toFixed(1) and a "px" suffix). -/
structure ContrastIssue where
  element : String
  explanation : String
  severity : String
  ratio : Option ℝ
  required : ℚ
  fgColor : String
  bgColor : String
  fontSize : Option ℚ
  contrastId : String

/-- processContrastElement: skip transparent and semi-transparent
backgrounds, compute the ratio, and flag when 0 < ratio < the applicable
WCAG AA minimum (3 for large text, 4.5 otherwise). -/
noncomputable def processContrastElement (el : CElem) (issueIndex : Nat) :
    Option ContrastIssue :=
  let fgColor := el.style.color
  let bgColor := el.style.backgroundColor
  if bgColor = "" ∨ bgColor = "transparent" ∨ bgColor = "rgba(0, 0, 0, 0)" then
    none
  else
    let bgSemiTransparent :=
      match parseColor bgColor with
      | some (ParsedColor.rgba bg) =>
          match bg.a with
          | some av => decide (av < 1)
          | none => false
      | _ => false
    if bgSemiTransparent then none
    else
      let ratio := calculateContrastRatio fgColor bgColor
      let fontSize := jsParseFloat el.style.fontSize
      let fontWeight := el.style.fontWeight
      let largeText := isLargeText fontSize fontWeight
      let minimumRatio : ℚ := if largeText then 3 else 4.5
      if jsPos ratio ∧ jsLtReal ratio (minimumRatio : ℝ) then
        some
          { element := jsToLower el.tagName ++ " " ++ toString (issueIndex + 1)
            explanation :=
              if largeText then
                "Pour du texte large, le ratio minimum est 3:1 (WCAG AA)."
              else
                "Pour du texte normal, le ratio minimum est 4.5:1 (WCAG AA)."
            severity := "élevée"
            ratio := ratio
            required := minimumRatio
            fgColor := fgColor
            bgColor := bgColor
            fontSize := fontSize
            contrastId := "accessibility-contrast-" ++ toString issueIndex }
      else none

/-- The visibility-and-text filter of checkContrast: hidden elements are
dropped; interactive elements (button, a, label) need non-empty trimmed
text content, others need a direct text node. -/
def contrastCandidate (el : CElem) : Bool :=
  if el.style.display == "none" || el.style.visibility == "hidden" ||
      el.style.opacity == "0" then
    false
  else
    let isInteractive := ["BUTTON", "A", "LABEL"].contains el.tagName
    if isInteractive then decide ((jsTrim el.textContent).length > 0)
    else hasDirectTextContent el

/-- The forEach loop of checkContrast: issueIndex advances only when an
issue is produced. -/
noncomputable def contrastLoop : List CElem → Nat → List ContrastIssue
  | [], _ => []
  | el :: rest, issueIndex =>
      match processContrastElement el issueIndex with
      | some issue => issue :: contrastLoop rest (issueIndex + 1)
      | none => contrastLoop rest issueIndex

/-- CategoryResult of the contrast detector, which also carries the
user-facing disclaimer string. -/
structure ContrastResult where
  total : Nat
  issues : List ContrastIssue
  passed : ℤ
  disclaimer : String

/-- checkContrast over the document-order candidate list (the elements the
selector "p, h1, ..., label" returns): filter, put interactive elements
first, cap at MAX_CONTRAST_ELEMENTS = 500, then scan. -/
noncomputable def checkContrast (allElements : List CElem) : ContrastResult :=
  let filtered := allElements.filter contrastCandidate
  let interactiveElements :=
    filtered.filter fun el => ["BUTTON", "A", "LABEL"].contains el.tagName
  let otherElements :=
    filtered.filter fun el => !(["BUTTON", "A", "LABEL"].contains el.tagName)
  let textElements := (interactiveElements ++ otherElements).take 500
  let issues := contrastLoop textElements 0
  { total := textElements.length
    issues := issues
    passed := (textElements.length : ℤ) - issues.length
    disclaimer :=
      "Contraste analysé pour texte sur fonds unis uniquement. Les dégradés, filtres et transparences nécessitent une vérification manuelle. <a href=\"https://webaim.org/resources/contrastchecker/\" target=\"_blank\" rel=\"noopener noreferrer\">Tester avec l\x27outil WebAIM →</a>" }

/-- Aggregate outcome of one rule category. -/
structure CategoryResult (α : Type) where
  total : Nat
  issues : List α
  passed : ℤ
deriving DecidableEq, Repr

/-- A heading as the heading detector sees it: the level parsed from the
tag name (querySelectorAll("h1, h2, h3, h4, h5, h6") only ever yields
levels 1-6) and the text content. -/
structure Heading where
  level : Nat
  textContent : String
deriving DecidableEq, Repr

/-- A heading-category issue record.  Skip issues carry the heading text;
empty-heading and page-level structural issues do not.  Per-heading issues
carry a headingId; structural issues do not. -/
structure HeadingIssue where
  element : String
  issue : String
  explanation : String
  severity : String
  text : Option String
  headingId : Option String
deriving DecidableEq, Repr

/-- The level-skip issue pushed for a jump of more than one level. -/
def skipIssueOf (previousLevel level : Nat) (text : String)
    (issueIndex : Nat) : HeadingIssue :=
  { element := "H" ++ toString level
    issue := "Saut de niveau de titre (de H" ++ toString previousLevel ++
      " à H" ++ toString level ++ ")"
    explanation := "Respecter la hiérarchie des titres (H1→H2→H3) aide les utilisateurs de lecteurs d\x27écran à comprendre la structure du document."
    severity := "moyenne"
    text := some text
    headingId := some ("accessibility-heading-" ++ toString issueIndex) }

/-- The empty-heading issue. -/
def emptyIssueOf (level index issueIndex : Nat) : HeadingIssue :=
  { element := "H" ++ (toString level ++ (" " ++ toString (index + 1)))
    issue := "Titre vide"
    explanation := "Un titre vide n\x27apporte aucune information et perturbe la navigation pour les utilisateurs de technologies d\x27assistance."
    severity := "élevée"
    text := none
    headingId := some ("accessibility-heading-" ++ toString issueIndex) }

/-- The page-level issue for a page without any h1. -/
def structuralNoH1Issue : HeadingIssue :=
  { element := "Structure"
    issue := "Aucun titre H1 trouvé sur la page"
    explanation := "Le H1 est essentiel pour la structure et le référencement. Il indique le sujet principal de la page aux utilisateurs et aux lecteurs d\x27écran."
    severity := "élevée"
    text := none
    headingId := none }

/-- The page-level issue for a page with more than one h1. -/
def structuralMultiH1Issue (h1Count : Nat) : HeadingIssue :=
  { element := "Structure"
    issue := toString h1Count ++ " titres H1 trouvés (recommandé: 1 seul)"
    explanation := "Une page doit avoir un seul H1 pour une structure claire. Plusieurs H1 peuvent dérouter les utilisateurs de lecteurs d\x27écran."
    severity := "moyenne"
    text := none
    headingId := none }

/-- The forEach loop of checkHeadings over the enumerated headings,
threading previousLevel (0 before the first heading) and issueIndex.  A
heading is flagged as a skip when previousLevel > 0 and
level - previousLevel > 1, and as empty when its trimmed text is "";
both can fire on the same heading. -/
def headingLoop : List (Nat × Heading) → Nat → Nat → List HeadingIssue
  | [], _, _ => []
  | (index, heading) :: rest, previousLevel, issueIndex =>
      let level := heading.level
      let skips :=
        if 0 < previousLevel ∧ (1 : ℤ) < (level : ℤ) - (previousLevel : ℤ) then
          [skipIssueOf previousLevel level (jsTrim heading.textContent) issueIndex]
        else []
      let idx₁ := issueIndex + skips.length
      let empties :=
        if jsTrim heading.textContent = "" then [emptyIssueOf level index idx₁]
        else []
      skips ++ empties ++ headingLoop rest level (idx₁ + empties.length)

/-- checkHeadings: the page-level structural check (h1Count = 0 → one high
issue, h1Count > 1 → one medium issue) followed by the per-heading loop;
passed = total - issues.length even when issues outnumber headings. -/
def checkHeadings (headings : List Heading) : CategoryResult HeadingIssue :=
  let h1Count := (headings.filter fun h => h.level == 1).length
  let structural :=
    if h1Count = 0 then [structuralNoH1Issue]
    else if 1 < h1Count then [structuralMultiH1Issue h1Count]
    else []
  let issues := structural ++ headingLoop headings.enum 0 0
  { total := headings.length
    issues := issues
    passed := (headings.length : ℤ) - issues.length }

/-- An img element: the alt and src reflected properties (a missing alt
attribute reflects as the empty string). -/
structure ImgElem where
  alt : String
  src : String
deriving DecidableEq, Repr

/-- An image issue record. -/
structure ImgIssue where
  element : String
  issue : String
  explanation : String
  severity : String
  src : String
  imageId : String
deriving DecidableEq, Repr

/-- checkImages: an img is flagged when its alt is empty or
whitespace-only (`!img.alt || img.alt.trim() === ""`). -/
def checkImages (images : List ImgElem) : CategoryResult ImgIssue :=
  let issues := images.enum.filterMap fun p =>
    if p.2.alt == "" || jsTrim p.2.alt == "" then
      some
        { element := "Image " ++ toString (p.1 + 1)
          issue := "Texte alternatif manquant"
          explanation := "Sans attribut alt, un utilisateur non-voyant ne peut pas comprendre cette image !"
          severity := "élevée"
          src := p.2.src
          imageId := "accessibility-img-" ++ toString p.1 }
    else none
  { total := images.length
    issues := issues
    passed := (images.length : ℤ) - issues.length }

/-- An svg element: role, aria-label and aria-hidden attributes (none =
attribute absent) and whether it has a title descendant. -/
structure SvgElem where
  role : Option String
  ariaLabel : Option String
  hasTitle : Bool
  ariaHidden : Option String
deriving DecidableEq, Repr

/-- isSVGAccessible: role="img", or a non-blank aria-label, or a title
descendant, or aria-hidden="true". -/
def isSVGAccessible (svg : SvgElem) : Bool :=
  let hasRole := svg.role == some "img"
  let hasAriaLabel :=
    match svg.ariaLabel with
    | some v => jsTrim v != ""
    | none => false
  hasRole || hasAriaLabel || svg.hasTitle || (svg.ariaHidden == some "true")

/-- An SVG issue record. -/
structure SvgIssue where
  element : String
  issue : String
  explanation : String
  severity : String
  svgId : String
deriving DecidableEq, Repr

/-- checkSVG: one issue per inaccessible inline svg. -/
def checkSVG (svgs : List SvgElem) : CategoryResult SvgIssue :=
  let issues := svgs.enum.filterMap fun p =>
    if !isSVGAccessible p.2 then
      some
        { element := "SVG " ++ toString (p.1 + 1)
          issue := "SVG inline sans description"
          explanation := "Ajoutez role=\"img\" + aria-label, ou un élément title interne, ou aria-hidden=\"true\" si décoratif"
          severity := "élevée"
          svgId := "accessibility-svg-" ++ toString p.1 }
    else none
  { total := svgs.length
    issues := issues
    passed := (svgs.length : ℤ) - issues.length }

/-- One text node visited by the extractLinkText TreeWalker; rejected is
true when its parent chain puts it inside an svg, an img, or an injected
accessibility badge (the filter callback's verdict, precomputed per
node). -/
structure LinkTextNode where
  textContent : String
  rejected : Bool
deriving DecidableEq, Repr

/-- The svg descendant a link may contain, with the attributes
checkLinkHasAccessibleSVG reads. -/
structure SvgInLink where
  role : Option String
  ariaLabel : Option String
  hasTitle : Bool
deriving DecidableEq, Repr

/-- An anchor element: aria-label, href, whether it contains an image with
a non-empty alt (`querySelector('img[alt]:not([alt=""])')`), its first svg
descendant if any, and the text nodes its TreeWalker visits. -/
structure LinkElem where
  ariaLabel : Option String
  href : String
  hasImgWithAlt : Bool
  svgInLink : Option SvgInLink
  textNodes : List LinkTextNode
deriving DecidableEq, Repr

/-- extractLinkText: concatenate the accepted text nodes in document order,
then trim. -/
def extractLinkText (link : LinkElem) : String :=
  (((link.textNodes.filter fun n => !n.rejected).map
    fun n => n.textContent).foldl (· ++ ·) "") |> jsTrim

/-- checkLinkHasAccessibleSVG: the link's svg descendant with role="img",
a non-blank aria-label, or a title descendant. -/
def checkLinkHasAccessibleSVG (link : LinkElem) : Bool :=
  match link.svgInLink with
  | none => false
  | some svg =>
      (svg.role == some "img") ||
      (match svg.ariaLabel with
       | some v => jsTrim v != ""
       | none => false) ||
      svg.hasTitle

/-- checkLinkHasAccessibleDescription:
`text || ariaLabel || hasImageWithAlt || hasSVGAccessible` with JavaScript
truthiness (empty text and empty aria-label are falsy). -/
def checkLinkHasAccessibleDescription (link : LinkElem) : Bool :=
  extractLinkText link != "" || jsTruthy link.ariaLabel ||
    link.hasImgWithAlt || checkLinkHasAccessibleSVG link

/-- The fixed list of non-descriptive link texts, compared lowercased. -/
def isNonDescriptiveText (text : String) : Bool :=
  ["cliquez ici", "en savoir plus", "voir", "lire la suite"].contains
    (jsToLower text)

/-- A link issue record; case 1 carries the href, case 2 the text. -/
structure LinkIssue where
  element : String
  issue : String
  explanation : String
  severity : String
  linkId : String
  href : Option String
  text : Option String
deriving DecidableEq, Repr

/-- analyzeLinkAccessibility: a high issue for a link with no accessible
description, else a medium issue for non-descriptive text without an
aria-label, else none. -/
def analyzeLinkAccessibility (link : LinkElem) (index : Nat) :
    Option LinkIssue :=
  let ariaLabel := link.ariaLabel
  let hasAccessibleDescription := checkLinkHasAccessibleDescription link
  let text := extractLinkText link
  if !hasAccessibleDescription then
    some
      { element := "Lien " ++ toString (index + 1)
        issue := "Lien sans texte descriptif"
        explanation := "Sans texte, un utilisateur non-voyant ne sait pas où mène ce lien !"
        severity := "élevée"
        linkId := "accessibility-link-" ++ toString index
        href := some link.href
        text := none }
  else if isNonDescriptiveText text && !jsTruthy ariaLabel then
    some
      { element := "Lien " ++ toString (index + 1)
        issue := "Texte de lien non descriptif"
        explanation := "Ajoutez un aria-label pour décrire la destination (ex: aria-label=\x27En savoir plus sur [sujet]\x27)"
        severity := "moyenne"
        linkId := "accessibility-link-" ++ toString index
        href := none
        text := some text }
  else none

/-- checkLinks: one issue at most per anchor. -/
def checkLinks (links : List LinkElem) : CategoryResult LinkIssue :=
  let issues := links.enum.filterMap fun p => analyzeLinkAccessibility p.2 p.1
  { total := links.length
    issues := issues
    passed := (links.length : ℤ) - issues.length }

/-- A form field as checkForms sees it: tag name, id property ("" when
absent), whether `label[for=id]` resolves, whether an ancestor label wraps
it, the aria-label / aria-labelledby attributes, and the reflected type
property. -/
structure FormInput where
  tagName : String
  id : String
  hasLabelFor : Bool
  insideLabel : Bool
  ariaLabel : Option String
  ariaLabelledby : Option String
  typeProp : String
deriving DecidableEq, Repr

/-- A form issue record. -/
structure FormIssue where
  element : String
  issue : String
  explanation : String
  severity : String
  fieldType : String
  formId : String
deriving DecidableEq, Repr

/-- The forEach loop of checkForms, threading issueIndex. -/
def formLoop : List (Nat × FormInput) → Nat → List FormIssue
  | [], _ => []
  | (index, input) :: rest, issueIndex =>
      let label := if input.id != "" then input.hasLabelFor
        else input.insideLabel
      if !label && !jsTruthy input.ariaLabel &&
          !jsTruthy input.ariaLabelledby then
        { element := input.tagName ++ " " ++ toString (index + 1)
          issue := "Champ de formulaire sans étiquette"
          explanation := "Sans label ou aria-label, les utilisateurs non-voyants ne savent pas quel type d\x27information saisir dans ce champ."
          severity := "élevée"
          fieldType := if input.typeProp = "" then "text" else input.typeProp
          formId := "accessibility-form-" ++ toString issueIndex } ::
          formLoop rest (issueIndex + 1)
      else formLoop rest issueIndex

/-- checkForms over the fields the selector
`input:not([type="hidden"]):not([type="submit"]):not([type="button"]),
textarea, select` returns. -/
def checkForms (inputs : List FormInput) : CategoryResult FormIssue :=
  let issues := formLoop inputs.enum 0
  { total := inputs.length
    issues := issues
    passed := (inputs.length : ℤ) - issues.length }

/-- A button element: text content and aria-label attribute. -/
structure ButtonElem where
  textContent : String
  ariaLabel : Option String
deriving DecidableEq, Repr

/-- A button issue record. -/
structure ButtonIssue where
  element : String
  issue : String
  explanation : String
  severity : String
  buttonId : String
deriving DecidableEq, Repr

/-- The forEach loop of checkButtons, threading issueIndex. -/
def buttonLoop : List (Nat × ButtonElem) → Nat → List ButtonIssue
  | [], _ => []
  | (index, button) :: rest, issueIndex =>
      let text := jsTrim button.textContent
      if text == "" && !jsTruthy button.ariaLabel then
        { element := "Bouton " ++ toString (index + 1)
          issue := "Bouton sans texte descriptif"
          explanation := "Un bouton sans texte ou aria-label est inutilisable pour les utilisateurs de lecteurs d\x27écran qui ne comprennent pas son action."
          severity := "élevée"
          buttonId := "accessibility-button-" ++ toString issueIndex } ::
          buttonLoop rest (issueIndex + 1)
      else buttonLoop rest issueIndex

/-- checkButtons: a button is flagged when it has neither trimmed text nor
an aria-label. -/
def checkButtons (buttons : List ButtonElem) : CategoryResult ButtonIssue :=
  let issues := buttonLoop buttons.enum 0
  { total := buttons.length
    issues := issues
    passed := (buttons.length : ℤ) - issues.length }

/-- The root html element as checkLanguage sees it: its lang attribute
(none = attribute absent; some "" = present but empty). -/
structure HtmlElement where
  lang : Option String
deriving DecidableEq, Repr

/-- A language issue record. -/
structure LangIssue where
  element : String
  issue : String
  explanation : String
  severity : String
deriving DecidableEq, Repr

/-- The single issue checkLanguage can emit. -/
def langMissingIssue : LangIssue :=
  { element := "HTML"
    issue := "Attribut lang manquant sur l\x27élément &lt;html&gt;"
    explanation := "L\x27attribut lang indique la langue du contenu, permettant aux lecteurs d\x27écran d\x27utiliser la bonne prononciation."
    severity := "élevée" }

/-- checkLanguage: `document.querySelector("html")` is dereferenced with no
null check (`htmlElement.hasAttribute("lang")`), so a document with no html
root makes the detector throw a TypeError, modelled as Except.error.
Otherwise the element is flagged exactly when the lang attribute is absent
(hasAttribute is false); a present-but-empty lang passes. -/
def checkLanguage (htmlElement : Option HtmlElement) :
    Except String (CategoryResult LangIssue) :=
  match htmlElement with
  | none => Except.error "TypeError"
  | some el =>
      let issues := if el.lang.isSome then [] else [langMissingIssue]
      Except.ok
        { total := 1
          issues := issues
          passed := (1 : ℤ) - issues.length }

/-- A landmark issue record. -/
structure LandmarkIssue where
  element : String
  issue : String
  explanation : String
  severity : String
deriving DecidableEq, Repr

/-- checkLandmarks: a medium issue when no main landmark resolves, a low
issue when no navigation landmark resolves; total is always 2. -/
def checkLandmarks (hasMain hasNav : Bool) : CategoryResult LandmarkIssue :=
  let mainIssues : List LandmarkIssue :=
    if !hasMain then
      [{ element := "Structure"
         issue := "Aucun élément <main> ou role=\"main\" trouvé"
         explanation := "L\x27élément &lt;main&gt; identifie le contenu principal et permet aux utilisateurs de lecteurs d\x27écran d\x27y accéder directement."
         severity := "moyenne" }]
    else []
  let navIssues : List LandmarkIssue :=
    if !hasNav then
      [{ element := "Structure"
         issue := "Aucun élément <nav> ou role=\"navigation\" trouvé"
         explanation := "L\x27élément &lt;nav&gt; aide les utilisateurs de technologies d\x27assistance à identifier et accéder rapidement à la navigation du site."
         severity := "faible" }]
    else []
  let issues := mainIssues ++ navIssues
  { total := 2
    issues := issues
    passed := (2 : ℤ) - issues.length }

/-- The document snapshot the audit consumes: each field carries, in
document order, the elements the corresponding querySelectorAll returns,
plus the html root and the landmark query outcomes. -/
structure Document where
  images : List ImgElem
  svgs : List SvgElem
  links : List LinkElem
  headings : List Heading
  formInputs : List FormInput
  contrastElements : List CElem
  htmlElement : Option HtmlElement
  hasMain : Bool
  hasNav : Bool
  buttons : List ButtonElem

/-- The full audit report: one CategoryResult per category plus the
always-empty colorblind placeholder. -/
structure AuditReport where
  images : CategoryResult ImgIssue
  svg : CategoryResult SvgIssue
  links : CategoryResult LinkIssue
  headings : CategoryResult HeadingIssue
  forms : CategoryResult FormIssue
  contrast : ContrastResult
  colorblind : CategoryResult Empty
  lang : CategoryResult LangIssue
  landmarks : CategoryResult LandmarkIssue
  buttons : CategoryResult ButtonIssue

/-- auditAccessibility: run every detector on the document snapshot; a
TypeError thrown by checkLanguage aborts the whole audit. -/
noncomputable def auditAccessibility (doc : Document) :
    Except String AuditReport :=
  match checkLanguage doc.htmlElement with
  | Except.error e => Except.error e
  | Except.ok langResult =>
      Except.ok
        { images := checkImages doc.images
          svg := checkSVG doc.svgs
          links := checkLinks doc.links
          headings := checkHeadings doc.headings
          forms := checkForms doc.formInputs
          contrast := checkContrast doc.contrastElements
          colorblind := { total := 0, issues := [], passed := 0 }
          lang := langResult
          landmarks := checkLandmarks doc.hasMain doc.hasNav
          buttons := checkButtons doc.buttons }

/-- Proof-side mirror of the skip condition threaded through the heading
loop: number of skip issues the loop emits from a given previous level. -/
def countSkips : Nat → List Heading → Nat
  | _, [] => 0
  | previousLevel, h :: rest =>
      (if 0 < previousLevel ∧ (1 : ℤ) < (h.level : ℤ) - (previousLevel : ℤ)
       then 1 else 0) + countSkips h.level rest

/-- Claim-side count: how many adjacent positions in a level sequence rise
by more than one level (the second member of each such pair is a "skip"). -/
def adjacentLevelSkips : List Nat → Nat
  | a :: b :: rest => (if a + 1 < b then 1 else 0) + adjacentLevelSkips (b :: rest)
  | _ => 0

/-- A contrast-candidate element whose foreground color does not parse
(used to witness that unparseable colors are excluded). -/
def cElemUnparseable : CElem :=
  { tagName := "P"
    style :=
      { display := "block"
        visibility := "visible"
        opacity := "1"
        color := "currentcolor"
        backgroundColor := "white"
        fontSize := "16px"
        fontWeight := "400" }
    textContent := "bonjour"
    childNodes := [⟨3, "bonjour"⟩] }

/-- A document with nothing in it but an html root carrying lang="fr"
(used to witness the audit invariants on a concrete run). -/
def docEmptyFr : Document :=
  { images := []
    svgs := []
    links := []
    headings := []
    formInputs := []
    contrastElements := []
    htmlElement := some { lang := some "fr" }
    hasMain := true
    hasNav := true
    buttons := [] }

/-- A document whose html-root query returns null. -/
def docNoHtmlRoot : Document :=
  { images := []
    svgs := []
    links := []
    headings := []
    formInputs := []
    contrastElements := []
    htmlElement := none
    hasMain := false
    hasNav := false
    buttons := [] }

/-- The report auditAccessibility returns on docEmptyFr. -/
noncomputable def reportEmptyFr : AuditReport :=
  { images := { total := 0, issues := [], passed := 0 }
    svg := { total := 0, issues := [], passed := 0 }
    links := { total := 0, issues := [], passed := 0 }
    headings := { total := 0, issues := [structuralNoH1Issue], passed := -1 }
    forms := { total := 0, issues := [], passed := 0 }
    contrast := checkContrast []
    colorblind := { total := 0, issues := [], passed := 0 }
    lang := { total := 1, issues := [], passed := 1 }
    landmarks := { total := 2, issues := [], passed := 2 }
    buttons := { total := 0, issues := [], passed := 0 } }

/-! ### Color parser lemmas -/

lemma searchRGB_paren : ∀ {cs : List Char} {x : RGBA},
    searchRGB cs = some x → '(' ∈ cs := by
  intro cs
  induction cs with
  | nil => intro x h; simp [searchRGB] at h
  | cons c rest ih =>
      intro x h
      simp only [searchRGB] at h
      rw [Option.orElse_eq_some] at h
      rcases h with h | ⟨-, h⟩
      · split at h
        · simp_all
        · simp_all
        · exact absurd h (by simp)
      · exact List.mem_cons_of_mem _ (ih h)

lemma hexVal_le (c : Char) : hexVal c ≤ 15 := by
  unfold hexVal
  split_ifs <;> omega

lemma hexPair_le (c₁ c₂ : Char) : hexPair c₁ c₂ ≤ 255 := by
  have h₁ := hexVal_le c₁
  have h₂ := hexVal_le c₂
  unfold hexPair
  omega

lemma hexParse_range {cs : List Char} {x : RGBA} (h : hexParse cs = some x) :
    x.r ≤ 255 ∧ x.g ≤ 255 ∧ x.b ≤ 255 ∧ x.a = some 1 := by
  unfold hexParse at h
  split at h
  · split at h
    · split at h
      · injection h with h'; subst h'
        exact ⟨hexPair_le _ _, hexPair_le _ _, hexPair_le _ _, rfl⟩
      · injection h with h'; subst h'
        exact ⟨hexPair_le _ _, hexPair_le _ _, hexPair_le _ _, rfl⟩
      · simp at h
    · simp at h
  · simp at h

lemma hexParse_head {cs : List Char} {x : RGBA} (h : hexParse cs = some x) :
    ∃ rest, cs = '#' :: rest := by
  unfold hexParse at h
  split at h
  · rename_i rest; exact ⟨rest, rfl⟩
  · simp at h

lemma colorMap_range {s : String} {x : RGBA}
    (h : colorMap s = some (ParsedColor.rgba x)) :
    x.r ≤ 255 ∧ x.g ≤ 255 ∧ x.b ≤ 255 ∧ x.a = some 1 := by
  unfold colorMap at h
  split_ifs at h <;>
    first
    | (simp only [Option.some.injEq, ParsedColor.rgba.injEq] at h; subst h;
        exact ⟨by decide, by decide, by decide, rfl⟩)
    | simp at h

/-- C7 counterexample: the rgb() branch of parseColor does not clamp its
components; "rgb(300, 0, 0)" parses to a red component of 300 > 255, so
the parser can hand the luminance functions a component outside [0,255]. -/
theorem parseColor_unclamped_cex :
    parseColor "rgb(300, 0, 0)" = some (ParsedColor.rgba ⟨300, 0, 0, some 1⟩) ∧
      ¬((300 : Nat) ≤ 255) := by
  constructor
  · decide
  · decide

/-- C7 (amended): whenever the input does not use the rgb()/rgba()
functional notation (it contains no opening parenthesis, so the rgb
pattern cannot match), every actual color record parseColor returns — as
opposed to a truthy Object.prototype property surfaced by the named-table
lookup, which has no numeric components at all — has integer components
within [0,255] and alpha exactly 1; rgb()/rgba() inputs are parsed
unclamped and may fall outside these ranges. -/
theorem parseColor_range_amended :
    ∀ (s : String) (c : RGBA), (∀ ch ∈ s.data, ch ≠ '(') →
      parseColor s = some (ParsedColor.rgba c) →
      c.r ≤ 255 ∧ c.g ≤ 255 ∧ c.b ≤ 255 ∧ c.a = some 1 := by
  intro s c hnp h
  unfold parseColor at h
  split_ifs at h with h₀
  cases hs : searchRGB s.data with
  | some r =>
      exact absurd rfl (hnp '(' (searchRGB_paren hs))
  | none =>
      rw [hs] at h
      cases hh : hexParse s.data with
      | some r =>
          rw [hh] at h
          simp only [Option.some.injEq, ParsedColor.rgba.injEq] at h
          subst h
          exact hexParse_range hh
      | none =>
          rw [hh] at h
          exact colorMap_range h

/-- C7 witness: the amended range theorem applied to the named color
"green". -/
theorem parseColor_range_amended_witness :
    (⟨0, 128, 0, some 1⟩ : RGBA).r ≤ 255 ∧
      (⟨0, 128, 0, some 1⟩ : RGBA).g ≤ 255 ∧
      (⟨0, 128, 0, some 1⟩ : RGBA).b ≤ 255 ∧
      (⟨0, 128, 0, some 1⟩ : RGBA).a = some 1 :=
  parseColor_range_amended "green" ⟨0, 128, 0, some 1⟩ (by decide) (by decide)

lemma isAsciiLetter_toLower {c : Char} (h : isAsciiLetter c = true) :
    isAsciiLetter c.toLower = true := by
  simp only [Char.toLower]
  split_ifs with hc
  · obtain ⟨hc₁, hc₂⟩ := hc
    generalize hg : c.toNat = n at hc₁ hc₂ ⊢
    interval_cases n <;> decide
  · exact h

lemma jsToLower_ne_proto {s : String}
    (hletters : ∀ ch ∈ s.data, isAsciiLetter ch = true) :
    jsToLower s ≠ "__proto__" := by
  intro h
  have hdata : s.data.map Char.toLower = "__proto__".data :=
    congrArg String.data h
  cases hs : s.data with
  | nil => rw [hs] at hdata; simp at hdata
  | cons c rest =>
      rw [hs] at hdata
      simp only [List.map_cons] at hdata
      have hc : Char.toLower c = '_' := by
        have hh := congrArg List.head? hdata
        simpa using hh
      have hl := hletters c (by rw [hs]; exact List.mem_cons_self _ _)
      have hlow := isAsciiLetter_toLower hl
      rw [hc] at hlow
      exact absurd hlow (by decide)

/-- C8 counterexample: the named-color lookup `colorMap[key] || null` is an
ordinary property access on a plain object, so the purely alphabetic
keyword "constructor", which is outside the five-entry table, resolves to
the truthy inherited Object.prototype.constructor and parseColor returns it
instead of null. -/
theorem parseColor_constructor_cex :
    parseColor "constructor" =
        some (ParsedColor.protoProperty "constructor") ∧
      parseColor "constructor" ≠ none ∧
      (∀ ch ∈ ("constructor" : String).data, isAsciiLetter ch = true) ∧
      ("constructor" : String) ∉
        (["white", "black", "red", "green", "blue"] : List String) := by
  refine ⟨by decide, by decide, by decide, by decide⟩

/-- C8 (amended): parseColor("#fff"), parseColor("#ffffff") and
parseColor("white") are all equal and yield {r:255,g:255,b:255,a:1}
(3-digit hex digits are doubled, hex and names are case-insensitive);
parseColor("transparent") and parseColor("not-a-color") yield null; and
every purely alphabetic keyword outside the five-entry table yields null
except those lowercasing to "constructor", which return the truthy
inherited Object.prototype property instead. -/
theorem parseColor_table_amended :
    parseColor "#fff" = some (ParsedColor.rgba ⟨255, 255, 255, some 1⟩) ∧
    parseColor "#ffffff" = some (ParsedColor.rgba ⟨255, 255, 255, some 1⟩) ∧
    parseColor "white" = some (ParsedColor.rgba ⟨255, 255, 255, some 1⟩) ∧
    parseColor "#FFF" = some (ParsedColor.rgba ⟨255, 255, 255, some 1⟩) ∧
    parseColor "WHITE" = some (ParsedColor.rgba ⟨255, 255, 255, some 1⟩) ∧
    parseColor "transparent" = none ∧
    parseColor "not-a-color" = none ∧
    (∀ s : String, (∀ ch ∈ s.data, isAsciiLetter ch = true) →
      jsToLower s ∉ (["white", "black", "red", "green", "blue"] : List String) →
      jsToLower s ≠ "constructor" →
      parseColor s = none) := by
  refine ⟨by decide, by decide, by decide, by decide, by decide, by decide,
    by decide, ?_⟩
  intro s hletters hnot hnc
  unfold parseColor
  split_ifs with h₀
  · rfl
  · have hs : searchRGB s.data = none := by
      cases hv : searchRGB s.data with
      | none => rfl
      | some r =>
          exact absurd (hletters '(' (searchRGB_paren hv)) (by decide)
    rw [hs]
    have hh : hexParse s.data = none := by
      cases hv : hexParse s.data with
      | none => rfl
      | some r =>
          obtain ⟨rest, hrest⟩ := hexParse_head hv
          have hc := hletters '#' (by rw [hrest]; exact List.mem_cons_self _ _)
          exact absurd hc (by decide)
    rw [hh]
    unfold colorMap
    split_ifs with h₁ h₂ h₃ h₄ h₅ h₆
    · exact absurd (by simp [h₁]) hnot
    · exact absurd (by simp [h₂]) hnot
    · exact absurd (by simp [h₃]) hnot
    · exact absurd (by simp [h₄]) hnot
    · exact absurd (by simp [h₅]) hnot
    · rcases h₆ with h₆ | h₆
      · exact absurd h₆ hnc
      · exact absurd h₆ (jsToLower_ne_proto hletters)
    · rfl

/-- C8 witness: the general no-match clause applied to the alphabetic
keyword "yellow". -/
theorem parseColor_table_amended_witness : parseColor "yellow" = none :=
  parseColor_table_amended.2.2.2.2.2.2.2 "yellow" (by decide) (by decide)
    (by decide)

/-! ### Luminance and contrast-ratio lemmas -/

lemma getRGBLuminance_nonneg {c : ℝ} (hc : 0 ≤ c) : 0 ≤ getRGBLuminance c := by
  simp only [getRGBLuminance]
  have hval : 0 ≤ c / 255 := div_nonneg hc (by norm_num)
  split_ifs with h
  · exact div_nonneg hval (by norm_num)
  · exact Real.rpow_nonneg (div_nonneg (by linarith) (by norm_num)) _

lemma getRelativeLuminance_nonneg {r g b : ℝ} (hr : 0 ≤ r) (hg : 0 ≤ g)
    (hb : 0 ≤ b) : 0 ≤ getRelativeLuminance r g b := by
  simp only [getRelativeLuminance]
  have h₁ := getRGBLuminance_nonneg hr
  have h₂ := getRGBLuminance_nonneg hg
  have h₃ := getRGBLuminance_nonneg hb
  have m₁ := mul_nonneg (by norm_num : (0:ℝ) ≤ 0.2126) h₁
  have m₂ := mul_nonneg (by norm_num : (0:ℝ) ≤ 0.7152) h₂
  have m₃ := mul_nonneg (by norm_num : (0:ℝ) ≤ 0.0722) h₃
  linarith

lemma getRGBLuminance_zero : getRGBLuminance 0 = 0 := by
  simp only [getRGBLuminance]
  rw [if_pos (by norm_num)]
  norm_num

lemma getRGBLuminance_255 : getRGBLuminance 255 = 1 := by
  simp only [getRGBLuminance]
  rw [if_neg (by norm_num)]
  have h : ((255 : ℝ) / 255 + 0.055) / 1.055 = 1 := by norm_num
  rw [h, Real.one_rpow]

lemma getRelativeLuminance_zero : getRelativeLuminance 0 0 0 = 0 := by
  simp only [getRelativeLuminance, getRGBLuminance_zero]
  norm_num

lemma getRelativeLuminance_255 : getRelativeLuminance 255 255 255 = 1 := by
  simp only [getRelativeLuminance, getRGBLuminance_255]
  norm_num

/-- C9: calculateContrastRatio is symmetric; it is 1 on any parseable
color against itself; black on white gives exactly 21 in the real-number
model, from relativeLuminance(0,0,0) = 0 and
relativeLuminance(255,255,255) = 1. -/
theorem contrastRatio_algebra :
    (∀ a b : String,
      calculateContrastRatio a b = calculateContrastRatio b a) ∧
    (∀ (x : String) (c : RGBA), parseColor x = some (ParsedColor.rgba c) →
      calculateContrastRatio x x = some 1) ∧
    calculateContrastRatio "#000000" "#ffffff" = some 21 ∧
    getRelativeLuminance 0 0 0 = 0 ∧
    getRelativeLuminance 255 255 255 = 1 := by
  refine ⟨?_, ?_, ?_, getRelativeLuminance_zero, getRelativeLuminance_255⟩
  · intro a b
    unfold calculateContrastRatio
    rcases parseColor a with _ | (fg | pa) <;>
      rcases parseColor b with _ | (bg | pb) <;>
      simp [max_comm, min_comm]
  · intro x c hx
    have hL : 0 ≤ getRelativeLuminance (c.r : ℝ) (c.g : ℝ) (c.b : ℝ) :=
      getRelativeLuminance_nonneg (Nat.cast_nonneg _) (Nat.cast_nonneg _)
        (Nat.cast_nonneg _)
    unfold calculateContrastRatio
    rw [hx]
    simp only [max_self, min_self, Option.some.injEq]
    exact div_self (ne_of_gt (by linarith))
  · have h₁ : parseColor "#000000" =
        some (ParsedColor.rgba ⟨0, 0, 0, some 1⟩) := by decide
    have h₂ : parseColor "#ffffff" =
        some (ParsedColor.rgba ⟨255, 255, 255, some 1⟩) := by decide
    unfold calculateContrastRatio
    rw [h₁, h₂]
    push_cast
    rw [getRelativeLuminance_zero, getRelativeLuminance_255]
    norm_num [max_def, min_def]

/-- C9 witness: the self-contrast clause applied to the parseable color
"#fff". -/
theorem contrastRatio_algebra_witness :
    calculateContrastRatio "#fff" "#fff" = some 1 :=
  contrastRatio_algebra.2.1 "#fff" ⟨255, 255, 255, some 1⟩ (by decide)

lemma calculateContrastRatio_eq_zero {fg bg : String}
    (h : parseColor fg = none ∨ parseColor bg = none) :
    calculateContrastRatio fg bg = some 0 := by
  unfold calculateContrastRatio
  rcases h with h | h
  · rw [h]
  · rw [h]
    rcases parseColor fg with _ | (c | p) <;> rfl

/-- C3: calculateContrastRatio returns the sentinel 0 (not an error)
whenever either color fails to parse; processContrastElement emits an
issue only when the computed ratio is strictly between 0 and the
applicable minimum; hence an element whose colors do not parse is excluded
from the contrast findings rather than flagged. -/
theorem contrast_sentinel_exclusion :
    (∀ fg bg : String, parseColor fg = none ∨ parseColor bg = none →
      calculateContrastRatio fg bg = some 0) ∧
    (∀ (el : CElem) (idx : Nat) (issue : ContrastIssue),
      processContrastElement el idx = some issue →
      jsPos (calculateContrastRatio el.style.color
        el.style.backgroundColor) ∧
      jsLtReal (calculateContrastRatio el.style.color
          el.style.backgroundColor)
        ((if isLargeText (jsParseFloat el.style.fontSize) el.style.fontWeight
          then (3 : ℚ) else 4.5) : ℝ)) ∧
    (∀ (el : CElem) (idx : Nat),
      parseColor el.style.color = none ∨
        parseColor el.style.backgroundColor = none →
      processContrastElement el idx = none) := by
  refine ⟨fun fg bg h => calculateContrastRatio_eq_zero h, ?_, ?_⟩
  · intro el idx issue h
    simp only [processContrastElement] at h
    split_ifs at h with h₁ h₂ h₃ h₄ h₅
    · rw [if_pos h₃]; exact h₄
    · rw [if_neg h₃]; exact h₅
  · intro el idx h
    have hz : calculateContrastRatio el.style.color el.style.backgroundColor
        = some 0 := calculateContrastRatio_eq_zero h
    simp only [processContrastElement]
    split_ifs with h₁ h₂ h₃ h₄ h₅
    · rfl
    · rfl
    · exfalso; rw [hz] at h₄; exact lt_irrefl 0 h₄.1
    · rfl
    · exfalso; rw [hz] at h₅; exact lt_irrefl 0 h₅.1
    · rfl

/-- C3 witness: the sentinel and the exclusion on a concrete element whose
foreground color ("currentcolor") the parser rejects. -/
theorem contrast_sentinel_exclusion_witness :
    calculateContrastRatio "currentcolor" "white" = some 0 ∧
      processContrastElement cElemUnparseable 0 = none := by
  constructor
  · exact contrast_sentinel_exclusion.1 "currentcolor" "white"
      (Or.inl (by decide))
  · exact contrast_sentinel_exclusion.2.2 cElemUnparseable 0
      (Or.inl (by decide))

/-! ### Heading detector lemmas -/

@[simp] lemma skipIssueOf_text (p l : Nat) (t : String) (ii : Nat) :
    (skipIssueOf p l t ii).text = some t := rfl

@[simp] lemma skipIssueOf_severity (p l : Nat) (t : String) (ii : Nat) :
    (skipIssueOf p l t ii).severity = "moyenne" := rfl

@[simp] lemma skipIssueOf_element (p l : Nat) (t : String) (ii : Nat) :
    (skipIssueOf p l t ii).element = "H" ++ toString l := rfl

@[simp] lemma skipIssueOf_headingId (p l : Nat) (t : String) (ii : Nat) :
    (skipIssueOf p l t ii).headingId =
      some ("accessibility-heading-" ++ toString ii) := rfl

@[simp] lemma emptyIssueOf_text (l n ii : Nat) :
    (emptyIssueOf l n ii).text = none := rfl

@[simp] lemma emptyIssueOf_severity (l n ii : Nat) :
    (emptyIssueOf l n ii).severity = "élevée" := rfl

@[simp] lemma emptyIssueOf_element (l n ii : Nat) :
    (emptyIssueOf l n ii).element =
      "H" ++ (toString l ++ (" " ++ toString (n + 1))) := rfl

@[simp] lemma emptyIssueOf_headingId (l n ii : Nat) :
    (emptyIssueOf l n ii).headingId =
      some ("accessibility-heading-" ++ toString ii) := rfl

@[simp] lemma structuralNoH1Issue_text : structuralNoH1Issue.text = none := rfl

@[simp] lemma structuralNoH1Issue_headingId :
    structuralNoH1Issue.headingId = none := rfl

@[simp] lemma structuralMultiH1Issue_text (n : Nat) :
    (structuralMultiH1Issue n).text = none := rfl

@[simp] lemma structuralMultiH1Issue_headingId (n : Nat) :
    (structuralMultiH1Issue n).headingId = none := rfl

lemma hPrefixed_ne_structure (s : String) : ("H" ++ s) ≠ "Structure" := by
  intro h
  have h₁ := congrArg (fun t => t.data.head?) h
  have h₂ : (some 'H' : Option Char) = some 'S' := by
    calc (some 'H' : Option Char)
        = ("H".data ++ s.data).head? := rfl
      _ = ("H" ++ s).data.head? := by rw [String.data_append]
      _ = "Structure".data.head? := h₁
      _ = some 'S' := rfl
  exact absurd h₂ (by decide)

lemma headingLoop_mem_shape :
    ∀ (pairs : List (Nat × Heading)) (prev idx : Nat) (i : HeadingIssue),
      i ∈ headingLoop pairs prev idx →
      (∃ p l t ii, i = skipIssueOf p l t ii) ∨
        (∃ l n ii, i = emptyIssueOf l n ii) := by
  intro pairs
  induction pairs with
  | nil => intro prev idx i h; simp [headingLoop] at h
  | cons hd tl ih =>
      intro prev idx i h
      obtain ⟨index, heading⟩ := hd
      simp only [headingLoop] at h
      rw [List.mem_append, List.mem_append] at h
      rcases h with (h | h) | h
      · split at h
        · rw [List.mem_singleton] at h
          exact Or.inl ⟨_, _, _, _, h⟩
        · simp at h
      · split at h
        · rw [List.mem_singleton] at h
          exact Or.inr ⟨_, _, _, h⟩
        · simp at h
      · exact ih _ _ _ h

lemma headingLoop_skipFilter :
    ∀ (pairs : List (Nat × Heading)) (prev idx : Nat),
      ((headingLoop pairs prev idx).filter fun i => i.text.isSome).length =
        countSkips prev (pairs.map Prod.snd) := by
  intro pairs
  induction pairs with
  | nil => intro prev idx; simp [headingLoop, countSkips]
  | cons hd tl ih =>
      intro prev idx
      obtain ⟨index, heading⟩ := hd
      simp only [headingLoop, countSkips, List.map_cons]
      rw [List.filter_append, List.filter_append, List.length_append,
        List.length_append, ih]
      split_ifs with h₁ h₂ <;> simp

lemma headingLoop_emptyFilter :
    ∀ (pairs : List (Nat × Heading)) (prev idx : Nat),
      ((headingLoop pairs prev idx).filter fun i =>
          i.headingId.isSome && i.text.isNone).length =
        ((pairs.map Prod.snd).filter fun h =>
          jsTrim h.textContent == "").length := by
  intro pairs
  induction pairs with
  | nil => intro prev idx; simp [headingLoop]
  | cons hd tl ih =>
      intro prev idx
      obtain ⟨index, heading⟩ := hd
      simp only [headingLoop, List.map_cons]
      rw [List.filter_append, List.filter_append, List.length_append,
        List.length_append, ih]
      by_cases h₂ : jsTrim heading.textContent = "" <;>
        by_cases h₁ : 0 < prev ∧ (1 : ℤ) < (heading.level : ℤ) - (prev : ℤ) <;>
        simp [h₁, h₂] <;> omega

lemma headingLoop_structFilter :
    ∀ (pairs : List (Nat × Heading)) (prev idx : Nat),
      (headingLoop pairs prev idx).filter
        (fun i => i.element == "Structure") = [] := by
  intro pairs prev idx
  rw [List.filter_eq_nil_iff]
  intro i hi
  rcases headingLoop_mem_shape pairs prev idx i hi with
    ⟨p, l, t, ii, rfl⟩ | ⟨l, n, ii, rfl⟩ <;>
    simpa using hPrefixed_ne_structure _

lemma checkHeadings_skipFilter (hs : List Heading) :
    ((checkHeadings hs).issues.filter fun i => i.text.isSome).length =
      countSkips 0 hs := by
  simp only [checkHeadings]
  rw [List.filter_append, List.length_append]
  have h₁ := headingLoop_skipFilter hs.enum 0 0
  rw [List.enum_map_snd] at h₁
  rw [h₁]
  split_ifs <;> simp [structuralNoH1Issue, structuralMultiH1Issue]

lemma checkHeadings_emptyFilter (hs : List Heading) :
    ((checkHeadings hs).issues.filter fun i =>
        i.headingId.isSome && i.text.isNone).length =
      (hs.filter fun h => jsTrim h.textContent == "").length := by
  simp only [checkHeadings]
  rw [List.filter_append, List.length_append]
  have h₁ := headingLoop_emptyFilter hs.enum 0 0
  rw [List.enum_map_snd] at h₁
  rw [h₁]
  split_ifs <;> simp [structuralNoH1Issue, structuralMultiH1Issue]

lemma checkHeadings_structFilter (hs : List Heading) :
    ((checkHeadings hs).issues.filter fun i => i.element == "Structure") =
      (if (hs.filter fun h => h.level == 1).length = 0
       then [structuralNoH1Issue]
       else if 1 < (hs.filter fun h => h.level == 1).length
       then [structuralMultiH1Issue (hs.filter fun h => h.level == 1).length]
       else []) := by
  simp only [checkHeadings]
  rw [List.filter_append, headingLoop_structFilter, List.append_nil]
  split_ifs <;> simp [structuralNoH1Issue, structuralMultiH1Issue]

lemma countSkips_eq_adj :
    ∀ (hs : List Heading) (prev : Nat), 1 ≤ prev →
      (∀ h ∈ hs, 1 ≤ h.level) →
      countSkips prev hs = adjacentLevelSkips (prev :: hs.map fun h => h.level) := by
  intro hs
  induction hs with
  | nil => intro prev _ _; simp [countSkips, adjacentLevelSkips]
  | cons h tl ih =>
      intro prev hp hall
      simp only [countSkips, List.map_cons, adjacentLevelSkips]
      rw [ih h.level (hall h (List.mem_cons_self _ _))
        (fun x hx => hall x (List.mem_cons_of_mem _ hx))]
      congr 1
      by_cases hc : prev + 1 < h.level
      · rw [if_pos hc, if_pos ⟨by omega, by omega⟩]
      · rw [if_neg hc, if_neg (by rintro ⟨-, h₂⟩; omega)]

lemma countSkips_zero (hs : List Heading) (hall : ∀ h ∈ hs, 1 ≤ h.level) :
    countSkips 0 hs = adjacentLevelSkips (hs.map fun h => h.level) := by
  cases hs with
  | nil => rfl
  | cons h tl =>
      simp only [countSkips, List.map_cons]
      rw [if_neg (by rintro ⟨h₁, -⟩; omega)]
      rw [countSkips_eq_adj tl h.level (hall h (List.mem_cons_self _ _))
        (fun x hx => hall x (List.mem_cons_of_mem _ hx))]
      simp

lemma countSkips_zero_of_no_jump :
    ∀ (hs : List Heading) (prev : Nat),
      (∀ p ∈ hs.zip hs.tail, p.2.level ≤ p.1.level + 1) →
      (∀ hd, hs.head? = some hd → 0 < prev → hd.level ≤ prev + 1) →
      countSkips prev hs = 0 := by
  intro hs
  induction hs with
  | nil => intro prev _ _; rfl
  | cons h tl ih =>
      intro prev hpairs hhead
      simp only [countSkips]
      rw [if_neg (by
        rintro ⟨h₁, h₂⟩
        have := hhead h rfl h₁
        omega)]
      rw [ih h.level ?_ ?_]
      · intro p hp
        apply hpairs
        cases tl with
        | nil => simp at hp
        | cons t tt =>
            simp only [List.tail_cons] at hp ⊢
            rw [List.zip_cons_cons]
            exact List.mem_cons_of_mem _ hp
      · intro hd hhd hpos
        cases tl with
        | nil => simp at hhd
        | cons t tt =>
            have hdt : t = hd := by simpa using hhd
            subst hdt
            refine hpairs (h, t) ?_
            simp only [List.tail_cons]
            rw [List.zip_cons_cons]
            exact List.mem_cons_self _ _

/-- C4: the heading detector reports exactly one high page-level issue when
the page has no h1 and exactly one medium page-level issue when it has more
than one (once per page); it reports one medium skip issue per heading
whose level exceeds the immediately preceding heading's level by more than
one, and one high empty-heading issue per heading with blank trimmed text
(skip issues are the ones carrying a text field, empty-heading issues the
per-heading ones without it); hence [H1, H3] yields exactly the one skip
issue referencing H1 to H3, [H1, H2, H3] yields none, and two h1 elements
yield exactly the one multiple-H1 structural issue. -/
theorem heading_detector_rules :
    (∀ hs : List Heading, (hs.filter fun h => h.level == 1).length = 0 →
      ((checkHeadings hs).issues.filter fun i => i.element == "Structure") =
          [structuralNoH1Issue] ∧
        structuralNoH1Issue.severity = "élevée") ∧
    (∀ hs : List Heading, 1 < (hs.filter fun h => h.level == 1).length →
      ((checkHeadings hs).issues.filter fun i => i.element == "Structure") =
          [structuralMultiH1Issue (hs.filter fun h => h.level == 1).length] ∧
        (structuralMultiH1Issue
          (hs.filter fun h => h.level == 1).length).severity = "moyenne") ∧
    (∀ hs : List Heading, (∀ h ∈ hs, 1 ≤ h.level) →
      ((checkHeadings hs).issues.filter fun i => i.text.isSome).length =
        adjacentLevelSkips (hs.map fun h => h.level)) ∧
    (∀ (hs : List Heading) (i : HeadingIssue), i ∈ (checkHeadings hs).issues →
      i.text.isSome → i.severity = "moyenne") ∧
    (∀ hs : List Heading,
      ((checkHeadings hs).issues.filter fun i =>
          i.headingId.isSome && i.text.isNone).length =
        (hs.filter fun h => jsTrim h.textContent == "").length) ∧
    (∀ (hs : List Heading) (i : HeadingIssue), i ∈ (checkHeadings hs).issues →
      i.headingId.isSome → i.text.isNone → i.severity = "élevée") ∧
    checkHeadings [⟨1, "Intro"⟩, ⟨3, "Détail"⟩] =
      { total := 2, issues := [skipIssueOf 1 3 "Détail" 0], passed := 1 } ∧
    (skipIssueOf 1 3 "Détail" 0).issue =
      "Saut de niveau de titre (de H1 à H3)" ∧
    checkHeadings [⟨1, "A"⟩, ⟨2, "B"⟩, ⟨3, "C"⟩] =
      { total := 3, issues := [], passed := 3 } ∧
    checkHeadings [⟨1, "A"⟩, ⟨1, "B"⟩] =
      { total := 2, issues := [structuralMultiH1Issue 2], passed := 1 } := by
  refine ⟨?_, ?_, ?_, ?_, ?_, ?_, by decide, by decide, by decide, by decide⟩
  · intro hs h0
    exact ⟨by rw [checkHeadings_structFilter, if_pos h0], rfl⟩
  · intro hs h1
    exact ⟨by rw [checkHeadings_structFilter, if_neg (by omega), if_pos h1],
      rfl⟩
  · intro hs hall
    rw [checkHeadings_skipFilter, countSkips_zero hs hall]
  · intro hs i hmem hsome
    simp only [checkHeadings] at hmem
    rw [List.mem_append] at hmem
    rcases hmem with hmem | hmem
    · have hstruct : i = structuralNoH1Issue ∨
          ∃ n, i = structuralMultiH1Issue n := by
        split at hmem
        · rw [List.mem_singleton] at hmem; exact Or.inl hmem
        · split at hmem
          · rw [List.mem_singleton] at hmem; exact Or.inr ⟨_, hmem⟩
          · simp at hmem
      rcases hstruct with rfl | ⟨n, rfl⟩ <;> simp at hsome
    · rcases headingLoop_mem_shape _ _ _ _ hmem with
        ⟨p, l, t, ii, rfl⟩ | ⟨l, n, ii, rfl⟩
      · rfl
      · simp at hsome
  · intro hs
    exact checkHeadings_emptyFilter hs
  · intro hs i hmem hid htn
    simp only [checkHeadings] at hmem
    rw [List.mem_append] at hmem
    rcases hmem with hmem | hmem
    · have hstruct : i = structuralNoH1Issue ∨
          ∃ n, i = structuralMultiH1Issue n := by
        split at hmem
        · rw [List.mem_singleton] at hmem; exact Or.inl hmem
        · split at hmem
          · rw [List.mem_singleton] at hmem; exact Or.inr ⟨_, hmem⟩
          · simp at hmem
      rcases hstruct with rfl | ⟨n, rfl⟩ <;> simp at hid
    · rcases headingLoop_mem_shape _ _ _ _ hmem with
        ⟨p, l, t, ii, rfl⟩ | ⟨l, n, ii, rfl⟩
      · simp at htn
      · rfl

/-- C4 witness: the structural clause on a page with one h2 and no h1, and
the skip-count clause on the page [H1, H3]. -/
theorem heading_detector_rules_witness :
    (((checkHeadings [⟨2, "Solo"⟩]).issues.filter fun i =>
          i.element == "Structure") = [structuralNoH1Issue] ∧
      structuralNoH1Issue.severity = "élevée") ∧
    ((checkHeadings [⟨1, "Un"⟩, ⟨3, "Trois"⟩]).issues.filter fun i =>
        i.text.isSome).length =
      adjacentLevelSkips (([⟨1, "Un"⟩, ⟨3, "Trois"⟩] : List Heading).map
        fun h => h.level) :=
  ⟨heading_detector_rules.1 [⟨2, "Solo"⟩] (by decide),
    heading_detector_rules.2.2.1 [⟨1, "Un"⟩, ⟨3, "Trois"⟩] (by decide)⟩

/-- C10: the level-skip rule fires only on strict upward jumps: a page's
first (or only) heading is never flagged as a skip whatever its level, a
heading whose level is equal to or lower than its predecessor's is never
flagged, and a page with no adjacent rise of more than one level gets no
skip issue at all. -/
theorem heading_skip_upward_only :
    (∀ h : Heading,
      ((checkHeadings [h]).issues.filter fun i => i.text.isSome).length
        = 0) ∧
    (∀ h₁ h₂ : Heading, h₂.level ≤ h₁.level →
      ((checkHeadings [h₁, h₂]).issues.filter fun i => i.text.isSome).length
        = 0) ∧
    (∀ hs : List Heading,
      (∀ p ∈ hs.zip hs.tail, p.2.level ≤ p.1.level + 1) →
      ((checkHeadings hs).issues.filter fun i => i.text.isSome).length
        = 0) := by
  refine ⟨?_, ?_, ?_⟩
  · intro h
    rw [checkHeadings_skipFilter]
    simp only [countSkips]
    rw [if_neg (by rintro ⟨c, -⟩; omega)]
  · intro h₁ h₂ hle
    rw [checkHeadings_skipFilter]
    simp only [countSkips]
    rw [if_neg (by rintro ⟨c, -⟩; omega), if_neg (by rintro ⟨-, hj⟩; omega)]
  · intro hs hpairs
    rw [checkHeadings_skipFilter]
    exact countSkips_zero_of_no_jump hs 0 hpairs
      (fun hd _ hpos => absurd hpos (by omega))

/-- C10 witness: a page descending from H4 to H2 and a page rising one
level at a time, both skip-free. -/
theorem heading_skip_upward_only_witness :
    ((checkHeadings [⟨4, "Quatre"⟩, ⟨2, "Deux"⟩]).issues.filter fun i =>
        i.text.isSome).length = 0 ∧
    ((checkHeadings [⟨1, "Alpha"⟩, ⟨2, "Beta"⟩]).issues.filter fun i =>
        i.text.isSome).length = 0 :=
  ⟨heading_skip_upward_only.2.1 ⟨4, "Quatre"⟩ ⟨2, "Deux"⟩ (by decide),
    heading_skip_upward_only.2.2 [⟨1, "Alpha"⟩, ⟨2, "Beta"⟩] (by decide)⟩

/-! ### Category-invariant lemmas -/

lemma contrastLoop_length_le :
    ∀ (els : List CElem) (idx : Nat),
      (contrastLoop els idx).length ≤ els.length := by
  intro els
  induction els with
  | nil => intro idx; simp [contrastLoop]
  | cons el rest ih =>
      intro idx
      simp only [contrastLoop]
      cases h : processContrastElement el idx with
      | some issue =>
          simp only [List.length_cons]
          exact Nat.succ_le_succ (ih _)
      | none => exact Nat.le_succ_of_le (ih _)

lemma formLoop_length_le :
    ∀ (l : List (Nat × FormInput)) (idx : Nat),
      (formLoop l idx).length ≤ l.length := by
  intro l
  induction l with
  | nil => intro idx; simp [formLoop]
  | cons hd tl ih =>
      intro idx
      obtain ⟨index, input⟩ := hd
      simp only [formLoop]
      split_ifs <;>
        simp only [List.length_cons] <;>
        first
        | exact Nat.succ_le_succ (ih _)
        | exact Nat.le_succ_of_le (ih _)

lemma buttonLoop_length_le :
    ∀ (l : List (Nat × ButtonElem)) (idx : Nat),
      (buttonLoop l idx).length ≤ l.length := by
  intro l
  induction l with
  | nil => intro idx; simp [buttonLoop]
  | cons hd tl ih =>
      intro idx
      obtain ⟨index, button⟩ := hd
      simp only [buttonLoop]
      split_ifs <;>
        simp only [List.length_cons] <;>
        first
        | exact Nat.succ_le_succ (ih _)
        | exact Nat.le_succ_of_le (ih _)

lemma checkImages_facts (l : List ImgElem) :
    (checkImages l).passed =
        ((checkImages l).total : ℤ) - (checkImages l).issues.length ∧
      (checkImages l).issues.length ≤ (checkImages l).total := by
  refine ⟨rfl, ?_⟩
  simp only [checkImages]
  calc (l.enum.filterMap _).length ≤ l.enum.length :=
        List.length_filterMap_le _ _
    _ = l.length := List.enum_length

lemma checkSVG_facts (l : List SvgElem) :
    (checkSVG l).passed =
        ((checkSVG l).total : ℤ) - (checkSVG l).issues.length ∧
      (checkSVG l).issues.length ≤ (checkSVG l).total := by
  refine ⟨rfl, ?_⟩
  simp only [checkSVG]
  calc (l.enum.filterMap _).length ≤ l.enum.length :=
        List.length_filterMap_le _ _
    _ = l.length := List.enum_length

lemma checkLinks_facts (l : List LinkElem) :
    (checkLinks l).passed =
        ((checkLinks l).total : ℤ) - (checkLinks l).issues.length ∧
      (checkLinks l).issues.length ≤ (checkLinks l).total := by
  refine ⟨rfl, ?_⟩
  simp only [checkLinks]
  calc (l.enum.filterMap _).length ≤ l.enum.length :=
        List.length_filterMap_le _ _
    _ = l.length := List.enum_length

lemma checkForms_facts (l : List FormInput) :
    (checkForms l).passed =
        ((checkForms l).total : ℤ) - (checkForms l).issues.length ∧
      (checkForms l).issues.length ≤ (checkForms l).total := by
  refine ⟨rfl, ?_⟩
  simp only [checkForms]
  calc (formLoop l.enum 0).length ≤ l.enum.length := formLoop_length_le _ _
    _ = l.length := List.enum_length

lemma checkButtons_facts (l : List ButtonElem) :
    (checkButtons l).passed =
        ((checkButtons l).total : ℤ) - (checkButtons l).issues.length ∧
      (checkButtons l).issues.length ≤ (checkButtons l).total := by
  refine ⟨rfl, ?_⟩
  simp only [checkButtons]
  calc (buttonLoop l.enum 0).length ≤ l.enum.length := buttonLoop_length_le _ _
    _ = l.length := List.enum_length

lemma checkContrast_facts (l : List CElem) :
    (checkContrast l).passed =
        ((checkContrast l).total : ℤ) - (checkContrast l).issues.length ∧
      (checkContrast l).issues.length ≤ (checkContrast l).total := by
  refine ⟨rfl, ?_⟩
  simp only [checkContrast]
  exact contrastLoop_length_le _ _

lemma checkLandmarks_facts (hasMain hasNav : Bool) :
    (checkLandmarks hasMain hasNav).passed =
        ((checkLandmarks hasMain hasNav).total : ℤ) -
          (checkLandmarks hasMain hasNav).issues.length ∧
      (checkLandmarks hasMain hasNav).issues.length ≤
        (checkLandmarks hasMain hasNav).total := by
  refine ⟨rfl, ?_⟩
  cases hasMain <;> cases hasNav <;> simp [checkLandmarks]

lemma checkLanguage_ok_facts {h : Option HtmlElement}
    {r : CategoryResult LangIssue} (hok : checkLanguage h = Except.ok r) :
    r.passed = (r.total : ℤ) - r.issues.length ∧
      r.issues.length ≤ r.total := by
  cases h with
  | none => simp [checkLanguage] at hok
  | some el =>
      simp only [checkLanguage, Except.ok.injEq] at hok
      subst hok
      by_cases hl : el.lang.isSome <;> simp [hl]

lemma checkHeadings_passed (hs : List Heading) :
    (checkHeadings hs).passed =
      ((checkHeadings hs).total : ℤ) - (checkHeadings hs).issues.length :=
  rfl

/-- C1 counterexample: on a page with no headings at all, the heading
detector still pushes the page-level "no H1" issue, so the headings
category violates len(issues) ≤ total: total = 0, one issue, passed = -1. -/
theorem audit_invariant_headings_cex :
    (checkHeadings []).total = 0 ∧
      (checkHeadings []).issues.length = 1 ∧
      (checkHeadings []).passed = -1 ∧
      ¬((checkHeadings []).issues.length ≤ (checkHeadings []).total) := by
  exact ⟨rfl, rfl, by decide, by decide⟩

/-- C1 (amended): on every audit run, every category satisfies
passed = total - len(issues) and total ≥ 0 (total is a natural number),
and every category except headings satisfies len(issues) ≤ total —
in particular contrast after truncation; the headings category counts
page-level structural issues (and can double-count a heading that both
skips a level and is empty), so its issues can outnumber its total. -/
theorem audit_category_invariants_amended :
    ∀ (doc : Document) (report : AuditReport),
      auditAccessibility doc = Except.ok report →
      (report.images.passed =
          (report.images.total : ℤ) - report.images.issues.length ∧
        report.images.issues.length ≤ report.images.total) ∧
      (report.svg.passed =
          (report.svg.total : ℤ) - report.svg.issues.length ∧
        report.svg.issues.length ≤ report.svg.total) ∧
      (report.links.passed =
          (report.links.total : ℤ) - report.links.issues.length ∧
        report.links.issues.length ≤ report.links.total) ∧
      (report.headings.passed =
          (report.headings.total : ℤ) - report.headings.issues.length) ∧
      (report.forms.passed =
          (report.forms.total : ℤ) - report.forms.issues.length ∧
        report.forms.issues.length ≤ report.forms.total) ∧
      (report.contrast.passed =
          (report.contrast.total : ℤ) - report.contrast.issues.length ∧
        report.contrast.issues.length ≤ report.contrast.total) ∧
      (report.colorblind.passed =
          (report.colorblind.total : ℤ) - report.colorblind.issues.length ∧
        report.colorblind.issues.length ≤ report.colorblind.total) ∧
      (report.lang.passed =
          (report.lang.total : ℤ) - report.lang.issues.length ∧
        report.lang.issues.length ≤ report.lang.total) ∧
      (report.landmarks.passed =
          (report.landmarks.total : ℤ) - report.landmarks.issues.length ∧
        report.landmarks.issues.length ≤ report.landmarks.total) ∧
      (report.buttons.passed =
          (report.buttons.total : ℤ) - report.buttons.issues.length ∧
        report.buttons.issues.length ≤ report.buttons.total) := by
  intro doc report h
  simp only [auditAccessibility] at h
  cases hl : checkLanguage doc.htmlElement with
  | error e => rw [hl] at h; simp at h
  | ok langRes =>
      rw [hl] at h
      simp only [Except.ok.injEq] at h
      subst h
      exact ⟨checkImages_facts _, checkSVG_facts _, checkLinks_facts _,
        checkHeadings_passed _, checkForms_facts _, checkContrast_facts _,
        ⟨rfl, Nat.le_refl _⟩, checkLanguage_ok_facts hl,
        checkLandmarks_facts _ _, checkButtons_facts _⟩

/-- C1 witness: the amended invariants instantiated on a concrete audit of
a document with an html root and nothing else. -/
theorem audit_category_invariants_amended_witness :
    (reportEmptyFr.images.passed =
        (reportEmptyFr.images.total : ℤ) -
          reportEmptyFr.images.issues.length ∧
      reportEmptyFr.images.issues.length ≤ reportEmptyFr.images.total) ∧
    (reportEmptyFr.svg.passed =
        (reportEmptyFr.svg.total : ℤ) - reportEmptyFr.svg.issues.length ∧
      reportEmptyFr.svg.issues.length ≤ reportEmptyFr.svg.total) ∧
    (reportEmptyFr.links.passed =
        (reportEmptyFr.links.total : ℤ) - reportEmptyFr.links.issues.length ∧
      reportEmptyFr.links.issues.length ≤ reportEmptyFr.links.total) ∧
    (reportEmptyFr.headings.passed =
        (reportEmptyFr.headings.total : ℤ) -
          reportEmptyFr.headings.issues.length) ∧
    (reportEmptyFr.forms.passed =
        (reportEmptyFr.forms.total : ℤ) - reportEmptyFr.forms.issues.length ∧
      reportEmptyFr.forms.issues.length ≤ reportEmptyFr.forms.total) ∧
    (reportEmptyFr.contrast.passed =
        (reportEmptyFr.contrast.total : ℤ) -
          reportEmptyFr.contrast.issues.length ∧
      reportEmptyFr.contrast.issues.length ≤ reportEmptyFr.contrast.total) ∧
    (reportEmptyFr.colorblind.passed =
        (reportEmptyFr.colorblind.total : ℤ) -
          reportEmptyFr.colorblind.issues.length ∧
      reportEmptyFr.colorblind.issues.length ≤
        reportEmptyFr.colorblind.total) ∧
    (reportEmptyFr.lang.passed =
        (reportEmptyFr.lang.total : ℤ) - reportEmptyFr.lang.issues.length ∧
      reportEmptyFr.lang.issues.length ≤ reportEmptyFr.lang.total) ∧
    (reportEmptyFr.landmarks.passed =
        (reportEmptyFr.landmarks.total : ℤ) -
          reportEmptyFr.landmarks.issues.length ∧
      reportEmptyFr.landmarks.issues.length ≤
        reportEmptyFr.landmarks.total) ∧
    (reportEmptyFr.buttons.passed =
        (reportEmptyFr.buttons.total : ℤ) -
          reportEmptyFr.buttons.issues.length ∧
      reportEmptyFr.buttons.issues.length ≤ reportEmptyFr.buttons.total) :=
  audit_category_invariants_amended docEmptyFr reportEmptyFr rfl

/-- C5 (code bug): checkLanguage dereferences the result of
querySelector("html") with no null check, so on a document with no html
root element the detector, and with it the whole audit, aborts with a
thrown TypeError instead of returning a CategoryResult. -/
theorem checkLanguage_null_root_throws :
    checkLanguage none = Except.error "TypeError" ∧
      auditAccessibility docNoHtmlRoot = Except.error "TypeError" :=
  ⟨rfl, rfl⟩

/-- C6 counterexample: an html element carrying lang="" is not flagged at
all — checkLanguage returns zero issues on it, not the one high-severity
issue the claim requires. -/
theorem checkLanguage_empty_lang_cex :
    checkLanguage (some { lang := some "" }) =
        Except.ok { total := 1, issues := [], passed := 1 } ∧
      ([] : List LangIssue).length ≠ 1 :=
  ⟨rfl, by decide⟩

/-- C6 (amended): only a fully absent lang attribute is flagged, with one
high-severity issue; any present lang attribute, even the empty string,
yields zero issues; total is always 1. -/
theorem checkLanguage_presence_amended :
    checkLanguage (some { lang := none }) =
        Except.ok { total := 1, issues := [langMissingIssue], passed := 0 } ∧
      langMissingIssue.severity = "élevée" ∧
      (∀ v : String, checkLanguage (some { lang := some v }) =
        Except.ok { total := 1, issues := [], passed := 1 }) :=
  ⟨rfl, rfl, fun _ => rfl⟩

end QuickA11y
